import Mathlib

/-!
Verification of the `bpm` broadcast-performance-metrics library
(`src/lib.rs`), a counter store and SEI-message encoder.

The Rust code is shallowly embedded as follows:
* the mutex-protected global `STATE` becomes an explicit `State` value
  threaded through each operation;
* `u32` counters become `Nat` with increments reduced modulo `2^32`
  (`U32_MOD`), mirroring release-mode wrapping arithmetic;
* byte buffers (`[u8; N]`) become `List Nat` values; `copy_from_slice`
  returns `none` on a length mismatch, mirroring the Rust panic;
* a Rust panic (capacity overrun, out-of-bounds `Vec` index) is modelled
  as `none` / `TrackResult.panicked`: across the `extern "C"` boundary it
  aborts the process, so no state after a panic is observable;
* the wall clock (`now_in_rfc3339`) and the chrono formatter
  (`millis_in_rfc3339`) are external effects and are passed in as
  parameters `now : List Nat` (the single captured instant) and
  `fmt : Int → List Nat` (the epoch-millisecond formatter).
-/

set_option maxRecDepth 8000
set_option maxHeartbeats 3200000

namespace Bpm

/-- `MAX_OUTPUT_VIDEO_ENCODERS` from src/lib.rs line 6. -/
def MAX_OUTPUT_VIDEO_ENCODERS : Nat := 6

/-- `SEI_UUID_SIZE` from src/lib.rs line 16. -/
def SEI_UUID_SIZE : Nat := 16

/-- `UUID_TS` constant, src/lib.rs line 17. -/
def UUID_TS : List Nat :=
  [0x0a, 0xec, 0xff, 0xe7, 0x52, 0x72, 0x4e, 0x2f, 0xa6, 0x2f, 0xd1, 0x9c, 0xd6, 0x1a, 0x93, 0xb5]

/-- `UUID_SM` constant, src/lib.rs line 18. -/
def UUID_SM : List Nat :=
  [0xca, 0x60, 0xe7, 0x1c, 0x6a, 0x8b, 0x43, 0x88, 0xa3, 0x77, 0x15, 0x1d, 0xf7, 0xbf, 0x8a, 0xc2]

/-- `UUID_ERM` constant, src/lib.rs line 19. -/
def UUID_ERM : List Nat :=
  [0xf1, 0xfb, 0xc1, 0xd5, 0x10, 0x1e, 0x4f, 0xb5, 0xa6, 0x1e, 0xb8, 0xce, 0x3c, 0x07, 0xb8, 0xc0]

/-- `NULL` byte constant, src/lib.rs line 53. -/
def NULL : Nat := 0

/-- `TS_TYPE` (RFC3339), src/lib.rs line 54. -/
def TS_TYPE : Nat := 1

/-- Timestamp event tags, src/lib.rs lines 55-58. -/
def BPM_TS_EVENT_CTS : Nat := 1

/-- Frame Encode Request event tag. -/
def BPM_TS_EVENT_FER : Nat := 2

/-- Frame Encode Request Complete event tag. -/
def BPM_TS_EVENT_FERC : Nat := 3

/-- Packet Interleave Request event tag. -/
def BPM_TS_EVENT_PIR : Nat := 4

/-- Session-metrics counter tags `BpmSmType`, src/lib.rs lines 37-42
(`BPM_SM_FRAMES_RENDERED = 1`, then lagged, dropped, output). -/
def BPM_SM_FRAMES_RENDERED : Nat := 1

/-- `BPM_SM_FRAMES_LAGGED`. -/
def BPM_SM_FRAMES_LAGGED : Nat := 2

/-- `BPM_SM_FRAMES_DROPPED`. -/
def BPM_SM_FRAMES_DROPPED : Nat := 3

/-- `BPM_SM_FRAMES_OUTPUT`. -/
def BPM_SM_FRAMES_OUTPUT : Nat := 4

/-- Rendition-metrics counter tags `BpmErmType`, src/lib.rs lines 45-49. -/
def BPM_ERM_FRAMES_INPUT : Nat := 1

/-- `BPM_ERM_FRAMES_SKIPPED`. -/
def BPM_ERM_FRAMES_SKIPPED : Nat := 2

/-- `BPM_ERM_FRAMES_OUTPUT`. -/
def BPM_ERM_FRAMES_OUTPUT : Nat := 3

/-- `2^32`, the modulus of Rust `u32` arithmetic. -/
def U32_MOD : Nat := 4294967296

/-- The shared state `struct State`, src/lib.rs lines 61-74. -/
structure State where
  track_map : List String
  sm_rendered : Nat
  sm_lagged : Nat
  sm_dropped : Nat
  sm_output : Nat
  erm_input : List Nat
  erm_skipped : List Nat
  erm_output : List Nat
deriving Repr, DecidableEq

/-- `impl Default for State`, src/lib.rs lines 76-89. -/
def State.default : State where
  track_map := []
  sm_rendered := 0
  sm_lagged := 0
  sm_dropped := 0
  sm_output := 0
  erm_input := List.replicate MAX_OUTPUT_VIDEO_ENCODERS 0
  erm_skipped := List.replicate MAX_OUTPUT_VIDEO_ENCODERS 0
  erm_output := List.replicate MAX_OUTPUT_VIDEO_ENCODERS 0

/-- Rust `Iterator::position`: index of the first element satisfying `p`. -/
def position (p : α → Bool) : List α → Option Nat
  | [] => none
  | x :: xs => if p x then some 0 else (position p xs).map (· + 1)

/-- Result of `State::get_track_index`: either an index together with the
(possibly extended) `track_map`, or a panic (which aborts the process
across the C boundary); the panic constructor records the registry as it
stood when the panic fired. -/
inductive TrackResult where
  | ok (idx : Nat) (map : List String)
  | panicked (map : List String)
deriving Repr, DecidableEq

/-- `State::get_track_index`, src/lib.rs lines 92-102: return the position
of `fingerprint` in `track_map` if present; otherwise panic when the map
already holds `MAX_OUTPUT_VIDEO_ENCODERS` entries, else push the
fingerprint and return the new last index. -/
def get_track_index (track_map : List String) (fingerprint : String) : TrackResult :=
  match position (fun x => x == fingerprint) track_map with
  | some index => .ok index track_map
  | none =>
    if track_map.length ≥ MAX_OUTPUT_VIDEO_ENCODERS then
      .panicked track_map
    else
      .ok track_map.length (track_map ++ [fingerprint])

/-- `bpm_get_track_index`, src/lib.rs lines 113-121: the C entry point.
A null pointer or invalid UTF-8 (`c_char_to_string` returning `None`,
modelled as the `none` argument) yields the sentinel `-1` without touching
the state; otherwise the registry operation runs; its panic (modelled as
`none`) aborts the process. -/
def bpm_get_track_index (track_fp : Option String) (s : State) : Option (Int × State) :=
  match track_fp with
  | some fp =>
    match get_track_index s.track_map fp with
    | .ok idx m => some ((idx : Int), { s with track_map := m })
    | .panicked _ => none
  | none => some (-1, s)

/-- `vec[i] += 1` on a `Vec<u32>`: panics (`none`) when `i` is out of
bounds, otherwise increments with `u32` wraparound. -/
def vecIncr (l : List Nat) (i : Nat) : Option (List Nat) :=
  match l[i]? with
  | some v => some (l.set i ((v + 1) % U32_MOD))
  | none => none

/-- `bpm_frame_encoded`, src/lib.rs lines 125-140: bump `sm_rendered` when
`track_idx == 0`, always bump `sm_output`, then bump
`erm_input[track_idx]` and `erm_output[track_idx]` (an out-of-bounds index
panics, modelled as `none`). -/
def bpm_frame_encoded (track_idx : Nat) (s : State) : Option State :=
  let s1 := if track_idx = 0 then { s with sm_rendered := (s.sm_rendered + 1) % U32_MOD } else s
  let s2 := { s1 with sm_output := (s1.sm_output + 1) % U32_MOD }
  match vecIncr s2.erm_input track_idx with
  | none => none
  | some inp =>
    let s3 := { s2 with erm_input := inp }
    match vecIncr s3.erm_output track_idx with
    | none => none
    | some outp => some { s3 with erm_output := outp }

/-- `bpm_frame_lagged`, src/lib.rs lines 144-153: bump `sm_lagged`, then
`erm_input[track_idx]` and `erm_skipped[track_idx]`. -/
def bpm_frame_lagged (track_idx : Nat) (s : State) : Option State :=
  let s1 := { s with sm_lagged := (s.sm_lagged + 1) % U32_MOD }
  match vecIncr s1.erm_input track_idx with
  | none => none
  | some inp =>
    let s2 := { s1 with erm_input := inp }
    match vecIncr s2.erm_skipped track_idx with
    | none => none
    | some sk => some { s2 with erm_skipped := sk }

/-- `bpm_frame_dropped`, src/lib.rs lines 156-166: bump `sm_dropped`, then
`erm_input[track_idx]` and `erm_skipped[track_idx]`. -/
def bpm_frame_dropped (track_idx : Nat) (s : State) : Option State :=
  let s1 := { s with sm_dropped := (s.sm_dropped + 1) % U32_MOD }
  match vecIncr s1.erm_input track_idx with
  | none => none
  | some inp =>
    let s2 := { s1 with erm_input := inp }
    match vecIncr s2.erm_skipped track_idx with
    | none => none
    | some sk => some { s2 with erm_skipped := sk }

/-- `<[u8]>::copy_from_slice` into the subrange `[start, stop)` of `dst`:
panics (`none`) unless the source length equals the range length and the
range lies inside `dst`. -/
def copy_from_slice (dst : List Nat) (start stop : Nat) (src : List Nat) : Option (List Nat) :=
  if start ≤ stop ∧ stop ≤ dst.length ∧ src.length = stop - start then
    some (dst.take start ++ src ++ dst.drop stop)
  else none

/-- `u32::to_be_bytes`: the four big-endian bytes of a `u32` value. -/
def to_be_bytes (v : Nat) : List Nat :=
  [v / 16777216 % 256, v / 65536 % 256, v / 256 % 256, v % 256]

/-- The subrange `[start, start+len)` of a buffer. -/
def slice (l : List Nat) (start len : Nat) : List Nat :=
  (l.drop start).take len

/-- `bpm_ts`, src/lib.rs lines 169-201: build the 125-byte Timestamp
message.  `now` is the single string captured from `now_in_rfc3339()` at
the top of the function; `fmt` is `millis_in_rfc3339`, applied to an
argument only when that argument is positive, each field falling back to
the shared `now` capture otherwise.  Writes mirror the source offsets:
UUID at `[0,16)`, count byte `0x03` at 16, then four 26-byte timestamp
sub-elements (type tag, event tag, 24 text bytes, NUL) at 17, 44, 71, 98. -/
def bpm_ts (fmt : Int → List Nat) (now : List Nat) (ts_cts ts_fer ts_ferc ts_pir : Int) :
    Option (List Nat) :=
  let cts := if ts_cts > 0 then fmt ts_cts else now
  let fer := if ts_fer > 0 then fmt ts_fer else now
  let ferc := if ts_ferc > 0 then fmt ts_ferc else now
  let pir := if ts_pir > 0 then fmt ts_pir else now
  match copy_from_slice (List.replicate 125 0) 0 16 UUID_TS with
  | none => none
  | some d =>
  let d := ((d.set 16 0x03).set 17 TS_TYPE).set 18 BPM_TS_EVENT_CTS
  match copy_from_slice d 19 43 cts with
  | none => none
  | some d =>
  let d := ((d.set 43 NULL).set 44 TS_TYPE).set 45 BPM_TS_EVENT_FER
  match copy_from_slice d 46 70 fer with
  | none => none
  | some d =>
  let d := ((d.set 70 NULL).set 71 TS_TYPE).set 72 BPM_TS_EVENT_FERC
  match copy_from_slice d 73 97 ferc with
  | none => none
  | some d =>
  let d := ((d.set 97 NULL).set 98 TS_TYPE).set 99 BPM_TS_EVENT_PIR
  match copy_from_slice d 100 124 pir with
  | none => none
  | some d =>
  some (d.set 124 NULL)

/-- `bpm_sm`, src/lib.rs lines 204-229: build the 66-byte Session Metrics
message from the locked state (returned unchanged: the body only reads
it).  `now` is the string captured from `now_in_rfc3339()`.  Offsets
mirror the source exactly; note the source writes the output counter tag
at index 61 (not 60) and its value at `[62,66)`, leaving byte 60 at its
zero-initialised value. -/
def bpm_sm (s : State) (now : List Nat) : Option (List Nat × State) :=
  match copy_from_slice (List.replicate 66 0) 0 16 UUID_SM with
  | none => none
  | some d =>
  let d := ((d.set 16 0x00).set 17 TS_TYPE).set 18 BPM_TS_EVENT_PIR
  match copy_from_slice d 19 43 now with
  | none => none
  | some d =>
  let d := ((d.set 43 NULL).set 44 0x03).set 45 BPM_SM_FRAMES_RENDERED
  match copy_from_slice d 46 50 (to_be_bytes s.sm_rendered) with
  | none => none
  | some d =>
  let d := d.set 50 BPM_SM_FRAMES_LAGGED
  match copy_from_slice d 51 55 (to_be_bytes s.sm_lagged) with
  | none => none
  | some d =>
  let d := d.set 55 BPM_SM_FRAMES_DROPPED
  match copy_from_slice d 56 60 (to_be_bytes s.sm_dropped) with
  | none => none
  | some d =>
  let d := d.set 61 BPM_SM_FRAMES_OUTPUT
  match copy_from_slice d 62 66 (to_be_bytes s.sm_output) with
  | none => none
  | some d =>
  some (d, s)

/-- `bpm_erm`, src/lib.rs lines 232-255: build the 60-byte Encoded
Rendition Metrics message for `track_idx` from the locked state (returned
unchanged: the body only reads it).  Indexing `erm_input` / `erm_skipped`
/ `erm_output` with `track_idx` out of bounds panics (`none`). -/
def bpm_erm (track_idx : Nat) (s : State) (now : List Nat) : Option (List Nat × State) :=
  match copy_from_slice (List.replicate 60 0) 0 16 UUID_ERM with
  | none => none
  | some d =>
  let d := ((d.set 16 0x00).set 17 TS_TYPE).set 18 BPM_TS_EVENT_PIR
  match copy_from_slice d 19 43 now with
  | none => none
  | some d =>
  let d := ((d.set 43 NULL).set 44 0x02).set 45 BPM_ERM_FRAMES_INPUT
  match s.erm_input[track_idx]? with
  | none => none
  | some vin =>
  match copy_from_slice d 46 50 (to_be_bytes vin) with
  | none => none
  | some d =>
  let d := d.set 50 BPM_ERM_FRAMES_SKIPPED
  match s.erm_skipped[track_idx]? with
  | none => none
  | some vsk =>
  match copy_from_slice d 51 55 (to_be_bytes vsk) with
  | none => none
  | some d =>
  let d := d.set 55 BPM_ERM_FRAMES_OUTPUT
  match s.erm_output[track_idx]? with
  | none => none
  | some vout =>
  match copy_from_slice d 56 60 (to_be_bytes vout) with
  | none => none
  | some d =>
  some (d, s)

/-- `bpm_ts_ptr`, src/lib.rs lines 260-275: the buffer this entry point
hands to the caller is `bpm_ts(0, 0, 0, 0)` (the null-pointer guard on
the two out-parameters, which returns `-1` without producing a buffer, is
pointer plumbing and not modelled). -/
def bpm_ts_ptr (fmt : Int → List Nat) (now : List Nat) : Option (List Nat) :=
  bpm_ts fmt now 0 0 0 0

/-- `bpm_sm_ptr`, src/lib.rs lines 280-295: despite its name and doc
comment ("Pointer to BPM Session Metrics data"), the body is identical to
`bpm_ts_ptr` — the buffer handed out is `bpm_ts(0, 0, 0, 0)`, not
`bpm_sm()`. -/
def bpm_sm_ptr (fmt : Int → List Nat) (now : List Nat) : Option (List Nat) :=
  bpm_ts fmt now 0 0 0 0

/-- `bpm_erm_ptr`, src/lib.rs lines 300-315: despite its name and doc
comment ("Pointer to BPM Encoded Rendition Metrics data"), the body is
identical to `bpm_ts_ptr` — the buffer handed out is `bpm_ts(0, 0, 0, 0)`,
not `bpm_erm(...)`. -/
def bpm_erm_ptr (fmt : Int → List Nat) (now : List Nat) : Option (List Nat) :=
  bpm_ts fmt now 0 0 0 0

/-- Modelled from the spec: the repository contains no combined-payload
(`render_payload`) function — only the three per-message encoders exist in
src/lib.rs.  Following spec section 4.4 "Combined Payload" ("Timestamp
Message immediately followed by Session Metrics Message immediately
followed by Encoded Rendition Metrics Message, contiguous"), the combined
payload for a track is the concatenation of the three encoded messages
produced by the source encoders. -/
def render_payload (fmt : Int → List Nat) (now : List Nat) (track_idx : Nat) (s : State) :
    Option (List Nat × State) :=
  match bpm_ts fmt now 0 0 0 0 with
  | none => none
  | some t =>
  match bpm_sm s now with
  | none => none
  | some (m, s1) =>
  match bpm_erm track_idx s1 now with
  | none => none
  | some (e, s2) =>
  some (t ++ m ++ e, s2)

/-- A fixed 24-byte stand-in for an RFC-3339 text timestamp (24 copies of
the ASCII digit `0`), used to instantiate `now` in concrete evaluations. -/
def now24 : List Nat := List.replicate 24 48

/-- A concrete epoch-millisecond formatter producing a different fixed
24-byte text (24 copies of ASCII `2`), used to instantiate `fmt` in
concrete evaluations. -/
def fmt0 : Int → List Nat := fun _ => List.replicate 24 50

/-! ### Helper lemmas -/

theorem position_append_left (p : α → Bool) (l1 l2 : List α) (i : Nat)
    (h : position p l1 = some i) : position p (l1 ++ l2) = some i := by
  induction l1 generalizing i with
  | nil => simp [position] at h
  | cons a t ih =>
    simp only [position, List.cons_append, List.append_eq] at h ⊢
    cases hpa : p a with
    | true => simpa [hpa] using h
    | false =>
      rw [hpa] at h
      simp only [Bool.false_eq_true, if_false] at h ⊢
      cases hpt : position p t with
      | none => simp [hpt] at h
      | some j =>
        rw [hpt] at h
        rw [ih j hpt]
        simpa using h

theorem position_get (p : α → Bool) (l : List α) (i : Nat)
    (h : position p l = some i) : ∃ x, l[i]? = some x ∧ p x = true := by
  induction l generalizing i with
  | nil => simp [position] at h
  | cons a t ih =>
    simp only [position] at h
    cases hpa : p a with
    | true =>
      rw [hpa, if_pos rfl] at h
      cases h
      exact ⟨a, by simp, hpa⟩
    | false =>
      rw [hpa] at h
      simp only [Bool.false_eq_true, if_false] at h
      cases hpt : position p t with
      | none => simp [hpt] at h
      | some j =>
        rw [hpt] at h
        simp only [Option.map_some', Option.some_inj] at h
        subst h
        obtain ⟨x, hx, hpx⟩ := ih j hpt
        exact ⟨x, by simpa using hx, hpx⟩

theorem position_append_singleton (p : α → Bool) (l : List α) (a : α)
    (h : position p l = none) (hp : p a = true) :
    position p (l ++ [a]) = some l.length := by
  induction l with
  | nil => simp [position, hp]
  | cons b t ih =>
    simp only [position] at h
    cases hpb : p b with
    | true => rw [hpb, if_pos rfl] at h; cases h
    | false =>
      rw [hpb] at h
      simp only [Bool.false_eq_true, if_false, Option.map_eq_none'] at h
      simp only [List.cons_append, position, hpb, Bool.false_eq_true, if_false,
        List.append_eq, ih h, Option.map_some', List.length_cons]

theorem get_track_index_ok_cases (m : List String) (fp : String) (i : Nat) (m' : List String)
    (h : get_track_index m fp = TrackResult.ok i m') :
    (position (fun x => x == fp) m = some i ∧ m' = m) ∨
    (position (fun x => x == fp) m = none ∧ m.length < MAX_OUTPUT_VIDEO_ENCODERS ∧
      i = m.length ∧ m' = m ++ [fp]) := by
  unfold get_track_index at h
  split at h
  · cases h
    rename_i hpos
    exact Or.inl ⟨hpos, rfl⟩
  · rename_i hpos
    split at h
    · cases h
    · cases h
      rename_i hlen
      exact Or.inr ⟨hpos, by omega, rfl, rfl⟩

theorem position_of_ok (m : List String) (fp : String) (i : Nat) (m' : List String)
    (h : get_track_index m fp = TrackResult.ok i m') :
    position (fun x => x == fp) m' = some i := by
  rcases get_track_index_ok_cases m fp i m' h with ⟨hpos, rfl⟩ | ⟨hpos, _, rfl, rfl⟩
  · exact hpos
  · exact position_append_singleton _ m fp hpos (by simp)

theorem getElem?_of_ok (m : List String) (fp : String) (i : Nat) (m' : List String)
    (h : get_track_index m fp = TrackResult.ok i m') : m'[i]? = some fp := by
  obtain ⟨x, hx, hpx⟩ := position_get _ m' i (position_of_ok m fp i m' h)
  rwa [show x = fp from by simpa using hpx] at hx

/-! ### C4 -/

/-- C4: track-index resolution is stable (resolving a fingerprint that
resolved to `i` resolves to `i` again after any further registry growth
`ext`, without changing the registry), distinct fingerprints resolve to
distinct indices, and the first fingerprint ever seen receives index 0. -/
theorem get_track_index_stable_distinct_zero :
    (∀ fp, get_track_index [] fp = TrackResult.ok 0 [fp]) ∧
    (∀ m fp i m' ext, get_track_index m fp = TrackResult.ok i m' →
      get_track_index (m' ++ ext) fp = TrackResult.ok i (m' ++ ext)) ∧
    (∀ m fp1 fp2 i j m1 m2, fp1 ≠ fp2 →
      get_track_index m fp1 = TrackResult.ok i m1 →
      get_track_index m1 fp2 = TrackResult.ok j m2 → i ≠ j) := by
  refine ⟨?_, ?_, ?_⟩
  · intro fp
    rfl
  · intro m fp i m' ext h
    have hpos := position_append_left _ m' ext i (position_of_ok m fp i m' h)
    unfold get_track_index
    rw [hpos]
  · intro m fp1 fp2 i j m1 m2 hne h1 h2 hij
    subst hij
    have hfp1 : m1[i]? = some fp1 := getElem?_of_ok m fp1 i m1 h1
    rcases get_track_index_ok_cases m1 fp2 i m2 h2 with ⟨hpos, _⟩ | ⟨_, _, hi, _⟩
    · obtain ⟨x, hx, hpx⟩ := position_get _ m1 i hpos
      rw [hfp1] at hx
      cases hx
      exact hne (by simpa using hpx.symm)
    · rw [hi, List.getElem?_eq_none (Nat.le_refl _)] at hfp1
      cases hfp1

/-- C4 witness: applies stability at the registry obtained from a first
resolution, and distinctness to two different fingerprints. -/
theorem get_track_index_stable_distinct_zero_witness :
    get_track_index (["a"] ++ []) "a" = TrackResult.ok 0 (["a"] ++ []) ∧ (0 : Nat) ≠ 1 :=
  ⟨get_track_index_stable_distinct_zero.2.1 [] "a" 0 ["a"] [] (by decide),
   get_track_index_stable_distinct_zero.2.2 [] "a" "b" 0 1 ["a"] ["a", "b"]
     (by decide) (by decide) (by decide)⟩

/-! ### C5 -/

/-- C5 counterexample: with the registry at capacity
(`MAX_OUTPUT_VIDEO_ENCODERS = 6` fingerprints), resolving a 7th distinct
fingerprint does not return an error value to the caller: it hits the
`panic!("Exceeded MAX_OUTPUT_VIDEO_ENCODERS limit")` at src/lib.rs line
97, which unwinds out of the `extern "C"` entry point and aborts the
process (modelled by `TrackResult.panicked`). -/
theorem get_track_index_capacity_counterexample :
    get_track_index ["fp1", "fp2", "fp3", "fp4", "fp5", "fp6"] "fp7" =
      TrackResult.panicked ["fp1", "fp2", "fp3", "fp4", "fp5", "fp6"] := by
  decide

/-- C5 (amended): resolving a distinct fingerprint when the registry
already holds `MAX_OUTPUT_VIDEO_ENCODERS` (6) fingerprints panics —
aborting the process across the C boundary — rather than returning an
error value; no entry is added before the panic (the `panicked` result
carries the registry exactly as it was). -/
theorem get_track_index_capacity_panics (m : List String) (fp : String)
    (hfull : 6 ≤ m.length) (habsent : position (fun x => x == fp) m = none) :
    get_track_index m fp = TrackResult.panicked m := by
  unfold get_track_index
  rw [habsent, if_pos (by simpa [MAX_OUTPUT_VIDEO_ENCODERS] using hfull)]

/-- C5 witness: the amended theorem applied to a concrete full registry. -/
theorem get_track_index_capacity_panics_witness :
    get_track_index ["a", "b", "c", "d", "e", "f"] "g" =
      TrackResult.panicked ["a", "b", "c", "d", "e", "f"] :=
  get_track_index_capacity_panics ["a", "b", "c", "d", "e", "f"] "g" (by decide) (by decide)

/-! ### C6 -/

/-- C6: recording a frame-encoded event for an in-range track `k`
increments `sm_rendered` by 1 exactly when `k = 0`, always increments
`sm_output` by 1, increments the track's `erm_input[k]` and
`erm_output[k]` by 1, and changes nothing else (the remaining fields of
the resulting state are those of `s`).  The `< U32_MOD` hypotheses state
that the touched `u32` counters do not wrap. -/
theorem bpm_frame_encoded_increments (s : State) (k : Nat)
    (hin : k < s.erm_input.length) (hout : k < s.erm_output.length)
    (h1 : s.sm_rendered + 1 < U32_MOD) (h2 : s.sm_output + 1 < U32_MOD)
    (h3 : s.erm_input[k] + 1 < U32_MOD) (h4 : s.erm_output[k] + 1 < U32_MOD) :
    bpm_frame_encoded k s = some
      { s with
        sm_rendered := if k = 0 then s.sm_rendered + 1 else s.sm_rendered,
        sm_output := s.sm_output + 1,
        erm_input := s.erm_input.set k (s.erm_input[k] + 1),
        erm_output := s.erm_output.set k (s.erm_output[k] + 1) } := by
  have hgin : s.erm_input[k]? = some s.erm_input[k] := List.getElem?_eq_getElem hin
  have hgout : s.erm_output[k]? = some s.erm_output[k] := List.getElem?_eq_getElem hout
  by_cases hk : k = 0
  · subst hk
    simp [bpm_frame_encoded, vecIncr, hgin, hgout,
      Nat.mod_eq_of_lt h1, Nat.mod_eq_of_lt h2, Nat.mod_eq_of_lt h3, Nat.mod_eq_of_lt h4]
  · simp [bpm_frame_encoded, vecIncr, hk, hgin, hgout,
      Nat.mod_eq_of_lt h2, Nat.mod_eq_of_lt h3, Nat.mod_eq_of_lt h4]

/-- C6 witness: the increment theorem applied to the fresh state with
track 0. -/
theorem bpm_frame_encoded_increments_witness :
    bpm_frame_encoded 0 State.default = some
      { track_map := [], sm_rendered := 1, sm_lagged := 0, sm_dropped := 0, sm_output := 1,
        erm_input := [1, 0, 0, 0, 0, 0], erm_skipped := [0, 0, 0, 0, 0, 0],
        erm_output := [1, 0, 0, 0, 0, 0] } :=
  bpm_frame_encoded_increments State.default 0 (by decide) (by decide)
    (by decide) (by decide) (by decide) (by decide)

/-! ### C8 -/

/-- C8 counterexample: with the registry empty (high-water mark 0),
recording a lagged frame for track index 3 does not produce any
out-of-range error — it silently succeeds and counts the event. -/
theorem bpm_frame_lagged_beyond_highwater_no_error :
    bpm_frame_lagged 3 State.default = some
      { track_map := [], sm_rendered := 0, sm_lagged := 1, sm_dropped := 0, sm_output := 0,
        erm_input := [0, 0, 0, 1, 0, 0], erm_skipped := [0, 0, 0, 1, 0, 0],
        erm_output := [0, 0, 0, 0, 0, 0] } := by
  decide

/-- C8 (amended): the record operations perform no registry bounds check
at all.  Any track index below `MAX_OUTPUT_VIDEO_ENCODERS` (the fixed
length 6 of the metric vectors) is accepted and counted silently, whatever
the registry's high-water mark (`s.track_map` is unconstrained here);
any index `≥ 6` makes the `Vec` indexing panic, which aborts the process
(modelled by `none`) instead of returning an error for just that call. -/
theorem record_ops_unchecked (s : State) (k : Nat)
    (hin : s.erm_input.length = 6) (hsk : s.erm_skipped.length = 6)
    (hout : s.erm_output.length = 6) :
    (k < 6 → (bpm_frame_encoded k s).isSome = true ∧ (bpm_frame_lagged k s).isSome = true ∧
      (bpm_frame_dropped k s).isSome = true) ∧
    (6 ≤ k → bpm_frame_encoded k s = none ∧ bpm_frame_lagged k s = none ∧
      bpm_frame_dropped k s = none) := by
  constructor
  · intro hk
    have hgin : s.erm_input[k]? = some s.erm_input[k] :=
      List.getElem?_eq_getElem (by omega)
    have hgsk : s.erm_skipped[k]? = some s.erm_skipped[k] :=
      List.getElem?_eq_getElem (by omega)
    have hgout : s.erm_output[k]? = some s.erm_output[k] :=
      List.getElem?_eq_getElem (by omega)
    refine ⟨?_, ?_, ?_⟩
    · simp [bpm_frame_encoded, vecIncr, apply_ite State.erm_input,
        apply_ite State.erm_output, hgin, hgout]
    · simp [bpm_frame_lagged, vecIncr, hgin, hgsk]
    · simp [bpm_frame_dropped, vecIncr, hgin, hgsk]
  · intro hk
    have hgin : s.erm_input[k]? = none := List.getElem?_eq_none (by omega)
    refine ⟨?_, ?_, ?_⟩
    · simp [bpm_frame_encoded, vecIncr, apply_ite State.erm_input, hgin]
    · simp [bpm_frame_lagged, vecIncr, hgin]
    · simp [bpm_frame_dropped, vecIncr, hgin]

/-- C8 witness: the amended theorem applied to the fresh state with
index 3 (in `[0,6)`, beyond the empty registry). -/
theorem record_ops_unchecked_witness :
    ((3 : Nat) < 6 → (bpm_frame_encoded 3 State.default).isSome = true ∧
      (bpm_frame_lagged 3 State.default).isSome = true ∧
      (bpm_frame_dropped 3 State.default).isSome = true) ∧
    ((6 : Nat) ≤ 3 → bpm_frame_encoded 3 State.default = none ∧
      bpm_frame_lagged 3 State.default = none ∧
      bpm_frame_dropped 3 State.default = none) :=
  record_ops_unchecked State.default 3 (by decide) (by decide) (by decide)

/-! ### C10 -/

/-- C10: encoding leaves the shared state unchanged.  Whenever `bpm_sm`
or `bpm_erm` returns a buffer, the state component it returns is exactly
the input state — every session counter, every per-track counter and the
track registry are untouched (the bodies only read the locked state; in
particular no snapshot is advanced).  `bpm_ts` does not access the shared
state at all (its embedding takes no `State` argument), so the claim is
immediate for it.  The `getD s` form makes the statement hypothesis-free:
if encoding panics there is no resulting state and the default is `s`
itself. -/
theorem encoders_preserve_state :
    ∀ (s : State) (now : List Nat) (k : Nat),
      ((bpm_sm s now).map Prod.snd).getD s = s ∧
      ((bpm_erm k s now).map Prod.snd).getD s = s := by
  intro s now k
  constructor
  · unfold bpm_sm
    repeat' first
    | rfl
    | split
    | simp only []
  · unfold bpm_erm
    repeat' first
    | rfl
    | split
    | simp only []

/-! ### C1 -/

/-- C1: the Session Metrics counters are NOT deltas.  Starting from the
fresh state, record one frame-encoded event on track 0, then encode the
Session Metrics message twice in a row with no intervening events: the
second encoding still carries `1` (the raw cumulative `sm_rendered`, big
endian at bytes `[46,50)`) instead of the all-zero delta the claim
requires.  The code keeps no last-reported snapshot at all (the `FIXME`
comments at src/lib.rs lines 220-226 record that the delta semantics is
intended but unimplemented), and `bpm_sm` never mutates the state, so
repeated encodings repeat the cumulative values. -/
theorem bpm_sm_second_report_not_zero :
    ((bpm_frame_encoded 0 State.default).bind (fun s =>
      (bpm_sm s now24).bind (fun r1 =>
        (bpm_sm r1.2 now24).map (fun r2 => slice r2.1 46 4)))) = some [0, 0, 0, 1] := by
  decide

/-! ### C2 -/

/-- C2: of the three buffer entry points, only `bpm_ts_ptr` hands out a
buffer starting with the UUID of its own message kind.  `bpm_sm_ptr` and
`bpm_erm_ptr` both build `bpm_ts(0,0,0,0)` (copy-paste at src/lib.rs
lines 285 and 305), so their buffers begin with the Timestamp UUID, which
differs from `UUID_SM` and `UUID_ERM`, contradicting the claim (and the
entry points' own doc comments). -/
theorem bpm_ptr_buffers_uuid :
    (bpm_ts_ptr fmt0 now24).map (fun b => b.take 16) = some UUID_TS ∧
    (bpm_sm_ptr fmt0 now24).map (fun b => b.take 16) = some UUID_TS ∧
    (bpm_erm_ptr fmt0 now24).map (fun b => b.take 16) = some UUID_TS ∧
    UUID_TS ≠ UUID_SM ∧ UUID_TS ≠ UUID_ERM := by
  refine ⟨by decide, by decide, by decide, by decide, by decide⟩

/-! ### C3 -/

/-- C3: the combined payload is 251 bytes, not 250.  The three messages
encode to 125, 66 and 60 bytes (`[u8; 125]`, `[u8; 66]`, `[u8; 60]` in
the source); their concatenation (`render_payload`, modelled from the
spec) has length 251 for the fresh state and track 0.  The extra byte is
the stray zero at offset 60 of the Session Metrics message (see the C7
theorem): with the four 5-byte counter elements laid out contiguously the
message would be 65 bytes and the total the claimed 250. -/
theorem render_payload_length_eq_251 :
    (render_payload fmt0 now24 0 State.default).map (fun r => r.1.length) = some 251 := by
  decide

/-! ### C7 -/

/-- C7: in the Session Metrics message the rendered/lagged/dropped
sub-elements are contiguous 5-byte groups (tags `1`, `2`, `3` at offsets
45, 50, 55, each followed by a 4-byte big-endian value), but the fourth
sub-element is not contiguous: after the dropped value ends at offset 60,
the source writes the output tag `4` at offset 61 (src/lib.rs line 225)
and its value at `[62,66)`, leaving the stray zero-initialised byte 60
where the claim requires the output tag to sit. -/
theorem bpm_sm_gap_byte_60 :
    (bpm_sm State.default now24).map (fun r => (r.1.length, slice r.1 45 21)) =
      some (66, [1, 0, 0, 0, 0,
                 2, 0, 0, 0, 0,
                 3, 0, 0, 0, 0, 0,
                 4, 0, 0, 0, 0]) := by
  decide


/-! ### C9 -/

theorem cfs_boundary (K src : List Nat) (m a b : Nat)
    (ha : K.length = a) (hb : b = a + src.length) (hm : src.length ≤ m) :
    copy_from_slice (K ++ List.replicate m 0) a b src =
      some ((K ++ src) ++ List.replicate (m - src.length) 0) := by
  unfold copy_from_slice
  rw [if_pos]
  · have hdrop : (K ++ List.replicate m 0).drop b = List.replicate (m - src.length) 0 := by
      rw [List.drop_append_eq_append_drop, List.drop_eq_nil_of_le (by omega), List.nil_append,
        List.drop_replicate]
      congr 1
      omega
    rw [List.take_left' ha, hdrop]
  · refine ⟨by omega, ?_, by omega⟩
    simp only [List.length_append, List.length_replicate]
    omega

theorem set_boundary0 (K : List Nat) (m v i : Nat) (hi : K.length = i) (hm : 0 < m) :
    (K ++ List.replicate m 0).set i v = (K ++ [v]) ++ List.replicate (m - 1) 0 := by
  rw [List.set_append_right _ _ (by omega), show i - K.length = 0 from by omega]
  cases m with
  | zero => omega
  | succ n =>
    rw [List.replicate_succ, List.set_cons_zero]
    simp [List.append_assoc]

theorem slice_left (A B : List Nat) (i n : Nat) (h : i + n ≤ A.length) :
    slice (A ++ B) i n = slice A i n := by
  unfold slice
  rw [List.drop_append_of_le_length (by omega),
    List.take_append_of_le_length (by simp only [List.length_drop]; omega)]

theorem slice_self (K T : List Nat) (i n : Nat) (hi : K.length = i) (hn : T.length = n) :
    slice (K ++ T) i n = T := by
  unfold slice
  subst hi hn
  rw [List.drop_left, List.take_length]

/-- C9: field routing in the Timestamp message.  Whenever the single
captured `now` text and every formatted caller-supplied text have the
required 24-byte width, `bpm_ts` succeeds and its four 24-byte text
fields (at offsets 19, 46, 73, 100) hold, in order: the formatted
caller-supplied instant when the corresponding epoch-millisecond argument
is positive, and the shared `now` capture otherwise; consequently when
all four arguments are non-positive the four fields are byte-for-byte
identical (all equal to the one `now` capture taken at the top of the
function). -/
theorem bpm_ts_timestamp_routing (fmt : Int → List Nat) (now : List Nat)
    (ts_cts ts_fer ts_ferc ts_pir : Int)
    (hnow : now.length = 24) (hfmt : ∀ v : Int, 0 < v → (fmt v).length = 24) :
    (bpm_ts fmt now ts_cts ts_fer ts_ferc ts_pir).map (fun b =>
        (slice b 19 24, slice b 46 24, slice b 73 24, slice b 100 24)) =
      some (if ts_cts > 0 then fmt ts_cts else now, if ts_fer > 0 then fmt ts_fer else now,
        if ts_ferc > 0 then fmt ts_ferc else now, if ts_pir > 0 then fmt ts_pir else now) ∧
    (ts_cts ≤ 0 → ts_fer ≤ 0 → ts_ferc ≤ 0 → ts_pir ≤ 0 →
      (bpm_ts fmt now ts_cts ts_fer ts_ferc ts_pir).map (fun b =>
          (slice b 19 24, slice b 46 24, slice b 73 24, slice b 100 24)) =
        some (now, now, now, now)) := by
  have hc : (if ts_cts > 0 then fmt ts_cts else now).length = 24 := by
    by_cases h : ts_cts > 0
    · rw [if_pos h]; exact hfmt _ h
    · rw [if_neg h]; exact hnow
  have hf : (if ts_fer > 0 then fmt ts_fer else now).length = 24 := by
    by_cases h : ts_fer > 0
    · rw [if_pos h]; exact hfmt _ h
    · rw [if_neg h]; exact hnow
  have hg : (if ts_ferc > 0 then fmt ts_ferc else now).length = 24 := by
    by_cases h : ts_ferc > 0
    · rw [if_pos h]; exact hfmt _ h
    · rw [if_neg h]; exact hnow
  have hp : (if ts_pir > 0 then fmt ts_pir else now).length = 24 := by
    by_cases h : ts_pir > 0
    · rw [if_pos h]; exact hfmt _ h
    · rw [if_neg h]; exact hnow
  have hmain : (bpm_ts fmt now ts_cts ts_fer ts_ferc ts_pir).map (fun b =>
        (slice b 19 24, slice b 46 24, slice b 73 24, slice b 100 24)) =
      some (if ts_cts > 0 then fmt ts_cts else now, if ts_fer > 0 then fmt ts_fer else now,
        if ts_ferc > 0 then fmt ts_ferc else now, if ts_pir > 0 then fmt ts_pir else now) := by
    obtain ⟨cts, hceq, hc24⟩ :
        ∃ l, (if ts_cts > 0 then fmt ts_cts else now) = l ∧ l.length = 24 := ⟨_, rfl, hc⟩
    obtain ⟨fer, hfeq, hf24⟩ :
        ∃ l, (if ts_fer > 0 then fmt ts_fer else now) = l ∧ l.length = 24 := ⟨_, rfl, hf⟩
    obtain ⟨ferc, hgeq, hg24⟩ :
        ∃ l, (if ts_ferc > 0 then fmt ts_ferc else now) = l ∧ l.length = 24 := ⟨_, rfl, hg⟩
    obtain ⟨pir, hpeq, hp24⟩ :
        ∃ l, (if ts_pir > 0 then fmt ts_pir else now) = l ∧ l.length = 24 := ⟨_, rfl, hp⟩
    simp only [bpm_ts]
    rw [hceq, hfeq, hgeq, hpeq]
    have e1 : copy_from_slice (List.replicate 125 0) 0 16 UUID_TS =
        some ([10, 236, 255, 231, 82, 114, 78, 47, 166, 47, 209, 156, 214, 26, 147, 181] ++ List.replicate 109 0) := by decide
    have e2 : ((([10, 236, 255, 231, 82, 114, 78, 47, 166, 47, 209, 156, 214, 26, 147, 181] ++ List.replicate 109 0).set 16 0x03).set 17 TS_TYPE).set 18
        BPM_TS_EVENT_CTS = [10, 236, 255, 231, 82, 114, 78, 47, 166, 47, 209, 156, 214, 26, 147, 181, 3, 1, 1] ++ List.replicate 106 0 := by decide
    have e3 : copy_from_slice ([10, 236, 255, 231, 82, 114, 78, 47, 166, 47, 209, 156, 214, 26, 147, 181, 3, 1, 1] ++ List.replicate 106 0) 19 43 cts =
        some (([10, 236, 255, 231, 82, 114, 78, 47, 166, 47, 209, 156, 214, 26, 147, 181, 3, 1, 1] ++ cts) ++ List.replicate 82 0) := by
      rw [cfs_boundary [10, 236, 255, 231, 82, 114, 78, 47, 166, 47, 209, 156, 214, 26, 147, 181, 3, 1, 1] cts 106 19 43 (by decide) (by omega) (by omega), hc24]
    have e4 : (([10, 236, 255, 231, 82, 114, 78, 47, 166, 47, 209, 156, 214, 26, 147, 181, 3, 1, 1] ++ cts) ++ List.replicate 82 0).set 43 NULL = (([10, 236, 255, 231, 82, 114, 78, 47, 166, 47, 209, 156, 214, 26, 147, 181, 3, 1, 1] ++ cts) ++ [NULL]) ++ List.replicate 81 0 := by
      rw [set_boundary0 ([10, 236, 255, 231, 82, 114, 78, 47, 166, 47, 209, 156, 214, 26, 147, 181, 3, 1, 1] ++ cts) 82 NULL 43 (by simp [hc24, hf24, hg24, hp24]) (by omega)]
    have e5 : ((([10, 236, 255, 231, 82, 114, 78, 47, 166, 47, 209, 156, 214, 26, 147, 181, 3, 1, 1] ++ cts) ++ [NULL]) ++ List.replicate 81 0).set 44 TS_TYPE = ((([10, 236, 255, 231, 82, 114, 78, 47, 166, 47, 209, 156, 214, 26, 147, 181, 3, 1, 1] ++ cts) ++ [NULL]) ++ [TS_TYPE]) ++ List.replicate 80 0 := by
      rw [set_boundary0 (([10, 236, 255, 231, 82, 114, 78, 47, 166, 47, 209, 156, 214, 26, 147, 181, 3, 1, 1] ++ cts) ++ [NULL]) 81 TS_TYPE 44 (by simp [hc24, hf24, hg24, hp24]) (by omega)]
    have e6 : (((([10, 236, 255, 231, 82, 114, 78, 47, 166, 47, 209, 156, 214, 26, 147, 181, 3, 1, 1] ++ cts) ++ [NULL]) ++ [TS_TYPE]) ++ List.replicate 80 0).set 45 BPM_TS_EVENT_FER = (((([10, 236, 255, 231, 82, 114, 78, 47, 166, 47, 209, 156, 214, 26, 147, 181, 3, 1, 1] ++ cts) ++ [NULL]) ++ [TS_TYPE]) ++ [BPM_TS_EVENT_FER]) ++ List.replicate 79 0 := by
      rw [set_boundary0 ((([10, 236, 255, 231, 82, 114, 78, 47, 166, 47, 209, 156, 214, 26, 147, 181, 3, 1, 1] ++ cts) ++ [NULL]) ++ [TS_TYPE]) 80 BPM_TS_EVENT_FER 45 (by simp [hc24, hf24, hg24, hp24]) (by omega)]
    have e7 : copy_from_slice ((((([10, 236, 255, 231, 82, 114, 78, 47, 166, 47, 209, 156, 214, 26, 147, 181, 3, 1, 1] ++ cts) ++ [NULL]) ++ [TS_TYPE]) ++ [BPM_TS_EVENT_FER]) ++ List.replicate 79 0) 46 70 fer = some (((((([10, 236, 255, 231, 82, 114, 78, 47, 166, 47, 209, 156, 214, 26, 147, 181, 3, 1, 1] ++ cts) ++ [NULL]) ++ [TS_TYPE]) ++ [BPM_TS_EVENT_FER]) ++ fer) ++ List.replicate 55 0) := by
      rw [cfs_boundary (((([10, 236, 255, 231, 82, 114, 78, 47, 166, 47, 209, 156, 214, 26, 147, 181, 3, 1, 1] ++ cts) ++ [NULL]) ++ [TS_TYPE]) ++ [BPM_TS_EVENT_FER]) fer 79 46 70 (by simp [hc24, hf24, hg24, hp24]) (by omega) (by omega), hf24]
    have e8 : (((((([10, 236, 255, 231, 82, 114, 78, 47, 166, 47, 209, 156, 214, 26, 147, 181, 3, 1, 1] ++ cts) ++ [NULL]) ++ [TS_TYPE]) ++ [BPM_TS_EVENT_FER]) ++ fer) ++ List.replicate 55 0).set 70 NULL = (((((([10, 236, 255, 231, 82, 114, 78, 47, 166, 47, 209, 156, 214, 26, 147, 181, 3, 1, 1] ++ cts) ++ [NULL]) ++ [TS_TYPE]) ++ [BPM_TS_EVENT_FER]) ++ fer) ++ [NULL]) ++ List.replicate 54 0 := by
      rw [set_boundary0 ((((([10, 236, 255, 231, 82, 114, 78, 47, 166, 47, 209, 156, 214, 26, 147, 181, 3, 1, 1] ++ cts) ++ [NULL]) ++ [TS_TYPE]) ++ [BPM_TS_EVENT_FER]) ++ fer) 55 NULL 70 (by simp [hc24, hf24, hg24, hp24]) (by omega)]
    have e9 : ((((((([10, 236, 255, 231, 82, 114, 78, 47, 166, 47, 209, 156, 214, 26, 147, 181, 3, 1, 1] ++ cts) ++ [NULL]) ++ [TS_TYPE]) ++ [BPM_TS_EVENT_FER]) ++ fer) ++ [NULL]) ++ List.replicate 54 0).set 71 TS_TYPE = ((((((([10, 236, 255, 231, 82, 114, 78, 47, 166, 47, 209, 156, 214, 26, 147, 181, 3, 1, 1] ++ cts) ++ [NULL]) ++ [TS_TYPE]) ++ [BPM_TS_EVENT_FER]) ++ fer) ++ [NULL]) ++ [TS_TYPE]) ++ List.replicate 53 0 := by
      rw [set_boundary0 (((((([10, 236, 255, 231, 82, 114, 78, 47, 166, 47, 209, 156, 214, 26, 147, 181, 3, 1, 1] ++ cts) ++ [NULL]) ++ [TS_TYPE]) ++ [BPM_TS_EVENT_FER]) ++ fer) ++ [NULL]) 54 TS_TYPE 71 (by simp [hc24, hf24, hg24, hp24]) (by omega)]
    have e10 : (((((((([10, 236, 255, 231, 82, 114, 78, 47, 166, 47, 209, 156, 214, 26, 147, 181, 3, 1, 1] ++ cts) ++ [NULL]) ++ [TS_TYPE]) ++ [BPM_TS_EVENT_FER]) ++ fer) ++ [NULL]) ++ [TS_TYPE]) ++ List.replicate 53 0).set 72 BPM_TS_EVENT_FERC = (((((((([10, 236, 255, 231, 82, 114, 78, 47, 166, 47, 209, 156, 214, 26, 147, 181, 3, 1, 1] ++ cts) ++ [NULL]) ++ [TS_TYPE]) ++ [BPM_TS_EVENT_FER]) ++ fer) ++ [NULL]) ++ [TS_TYPE]) ++ [BPM_TS_EVENT_FERC]) ++ List.replicate 52 0 := by
      rw [set_boundary0 ((((((([10, 236, 255, 231, 82, 114, 78, 47, 166, 47, 209, 156, 214, 26, 147, 181, 3, 1, 1] ++ cts) ++ [NULL]) ++ [TS_TYPE]) ++ [BPM_TS_EVENT_FER]) ++ fer) ++ [NULL]) ++ [TS_TYPE]) 53 BPM_TS_EVENT_FERC 72 (by simp [hc24, hf24, hg24, hp24]) (by omega)]
    have e11 : copy_from_slice ((((((((([10, 236, 255, 231, 82, 114, 78, 47, 166, 47, 209, 156, 214, 26, 147, 181, 3, 1, 1] ++ cts) ++ [NULL]) ++ [TS_TYPE]) ++ [BPM_TS_EVENT_FER]) ++ fer) ++ [NULL]) ++ [TS_TYPE]) ++ [BPM_TS_EVENT_FERC]) ++ List.replicate 52 0) 73 97 ferc = some (((((((((([10, 236, 255, 231, 82, 114, 78, 47, 166, 47, 209, 156, 214, 26, 147, 181, 3, 1, 1] ++ cts) ++ [NULL]) ++ [TS_TYPE]) ++ [BPM_TS_EVENT_FER]) ++ fer) ++ [NULL]) ++ [TS_TYPE]) ++ [BPM_TS_EVENT_FERC]) ++ ferc) ++ List.replicate 28 0) := by
      rw [cfs_boundary (((((((([10, 236, 255, 231, 82, 114, 78, 47, 166, 47, 209, 156, 214, 26, 147, 181, 3, 1, 1] ++ cts) ++ [NULL]) ++ [TS_TYPE]) ++ [BPM_TS_EVENT_FER]) ++ fer) ++ [NULL]) ++ [TS_TYPE]) ++ [BPM_TS_EVENT_FERC]) ferc 52 73 97 (by simp [hc24, hf24, hg24, hp24]) (by omega) (by omega), hg24]
    have e12 : (((((((((([10, 236, 255, 231, 82, 114, 78, 47, 166, 47, 209, 156, 214, 26, 147, 181, 3, 1, 1] ++ cts) ++ [NULL]) ++ [TS_TYPE]) ++ [BPM_TS_EVENT_FER]) ++ fer) ++ [NULL]) ++ [TS_TYPE]) ++ [BPM_TS_EVENT_FERC]) ++ ferc) ++ List.replicate 28 0).set 97 NULL = (((((((((([10, 236, 255, 231, 82, 114, 78, 47, 166, 47, 209, 156, 214, 26, 147, 181, 3, 1, 1] ++ cts) ++ [NULL]) ++ [TS_TYPE]) ++ [BPM_TS_EVENT_FER]) ++ fer) ++ [NULL]) ++ [TS_TYPE]) ++ [BPM_TS_EVENT_FERC]) ++ ferc) ++ [NULL]) ++ List.replicate 27 0 := by
      rw [set_boundary0 ((((((((([10, 236, 255, 231, 82, 114, 78, 47, 166, 47, 209, 156, 214, 26, 147, 181, 3, 1, 1] ++ cts) ++ [NULL]) ++ [TS_TYPE]) ++ [BPM_TS_EVENT_FER]) ++ fer) ++ [NULL]) ++ [TS_TYPE]) ++ [BPM_TS_EVENT_FERC]) ++ ferc) 28 NULL 97 (by simp [hc24, hf24, hg24, hp24]) (by omega)]
    have e13 : ((((((((((([10, 236, 255, 231, 82, 114, 78, 47, 166, 47, 209, 156, 214, 26, 147, 181, 3, 1, 1] ++ cts) ++ [NULL]) ++ [TS_TYPE]) ++ [BPM_TS_EVENT_FER]) ++ fer) ++ [NULL]) ++ [TS_TYPE]) ++ [BPM_TS_EVENT_FERC]) ++ ferc) ++ [NULL]) ++ List.replicate 27 0).set 98 TS_TYPE = ((((((((((([10, 236, 255, 231, 82, 114, 78, 47, 166, 47, 209, 156, 214, 26, 147, 181, 3, 1, 1] ++ cts) ++ [NULL]) ++ [TS_TYPE]) ++ [BPM_TS_EVENT_FER]) ++ fer) ++ [NULL]) ++ [TS_TYPE]) ++ [BPM_TS_EVENT_FERC]) ++ ferc) ++ [NULL]) ++ [TS_TYPE]) ++ List.replicate 26 0 := by
      rw [set_boundary0 (((((((((([10, 236, 255, 231, 82, 114, 78, 47, 166, 47, 209, 156, 214, 26, 147, 181, 3, 1, 1] ++ cts) ++ [NULL]) ++ [TS_TYPE]) ++ [BPM_TS_EVENT_FER]) ++ fer) ++ [NULL]) ++ [TS_TYPE]) ++ [BPM_TS_EVENT_FERC]) ++ ferc) ++ [NULL]) 27 TS_TYPE 98 (by simp [hc24, hf24, hg24, hp24]) (by omega)]
    have e14 : (((((((((((([10, 236, 255, 231, 82, 114, 78, 47, 166, 47, 209, 156, 214, 26, 147, 181, 3, 1, 1] ++ cts) ++ [NULL]) ++ [TS_TYPE]) ++ [BPM_TS_EVENT_FER]) ++ fer) ++ [NULL]) ++ [TS_TYPE]) ++ [BPM_TS_EVENT_FERC]) ++ ferc) ++ [NULL]) ++ [TS_TYPE]) ++ List.replicate 26 0).set 99 BPM_TS_EVENT_PIR = (((((((((((([10, 236, 255, 231, 82, 114, 78, 47, 166, 47, 209, 156, 214, 26, 147, 181, 3, 1, 1] ++ cts) ++ [NULL]) ++ [TS_TYPE]) ++ [BPM_TS_EVENT_FER]) ++ fer) ++ [NULL]) ++ [TS_TYPE]) ++ [BPM_TS_EVENT_FERC]) ++ ferc) ++ [NULL]) ++ [TS_TYPE]) ++ [BPM_TS_EVENT_PIR]) ++ List.replicate 25 0 := by
      rw [set_boundary0 ((((((((((([10, 236, 255, 231, 82, 114, 78, 47, 166, 47, 209, 156, 214, 26, 147, 181, 3, 1, 1] ++ cts) ++ [NULL]) ++ [TS_TYPE]) ++ [BPM_TS_EVENT_FER]) ++ fer) ++ [NULL]) ++ [TS_TYPE]) ++ [BPM_TS_EVENT_FERC]) ++ ferc) ++ [NULL]) ++ [TS_TYPE]) 26 BPM_TS_EVENT_PIR 99 (by simp [hc24, hf24, hg24, hp24]) (by omega)]
    have e15 : copy_from_slice ((((((((((((([10, 236, 255, 231, 82, 114, 78, 47, 166, 47, 209, 156, 214, 26, 147, 181, 3, 1, 1] ++ cts) ++ [NULL]) ++ [TS_TYPE]) ++ [BPM_TS_EVENT_FER]) ++ fer) ++ [NULL]) ++ [TS_TYPE]) ++ [BPM_TS_EVENT_FERC]) ++ ferc) ++ [NULL]) ++ [TS_TYPE]) ++ [BPM_TS_EVENT_PIR]) ++ List.replicate 25 0) 100 124 pir = some (((((((((((((([10, 236, 255, 231, 82, 114, 78, 47, 166, 47, 209, 156, 214, 26, 147, 181, 3, 1, 1] ++ cts) ++ [NULL]) ++ [TS_TYPE]) ++ [BPM_TS_EVENT_FER]) ++ fer) ++ [NULL]) ++ [TS_TYPE]) ++ [BPM_TS_EVENT_FERC]) ++ ferc) ++ [NULL]) ++ [TS_TYPE]) ++ [BPM_TS_EVENT_PIR]) ++ pir) ++ List.replicate 1 0) := by
      rw [cfs_boundary (((((((((((([10, 236, 255, 231, 82, 114, 78, 47, 166, 47, 209, 156, 214, 26, 147, 181, 3, 1, 1] ++ cts) ++ [NULL]) ++ [TS_TYPE]) ++ [BPM_TS_EVENT_FER]) ++ fer) ++ [NULL]) ++ [TS_TYPE]) ++ [BPM_TS_EVENT_FERC]) ++ ferc) ++ [NULL]) ++ [TS_TYPE]) ++ [BPM_TS_EVENT_PIR]) pir 25 100 124 (by simp [hc24, hf24, hg24, hp24]) (by omega) (by omega), hp24]
    have e16 : (((((((((((((([10, 236, 255, 231, 82, 114, 78, 47, 166, 47, 209, 156, 214, 26, 147, 181, 3, 1, 1] ++ cts) ++ [NULL]) ++ [TS_TYPE]) ++ [BPM_TS_EVENT_FER]) ++ fer) ++ [NULL]) ++ [TS_TYPE]) ++ [BPM_TS_EVENT_FERC]) ++ ferc) ++ [NULL]) ++ [TS_TYPE]) ++ [BPM_TS_EVENT_PIR]) ++ pir) ++ List.replicate 1 0).set 124 NULL = (((((((((((((([10, 236, 255, 231, 82, 114, 78, 47, 166, 47, 209, 156, 214, 26, 147, 181, 3, 1, 1] ++ cts) ++ [NULL]) ++ [TS_TYPE]) ++ [BPM_TS_EVENT_FER]) ++ fer) ++ [NULL]) ++ [TS_TYPE]) ++ [BPM_TS_EVENT_FERC]) ++ ferc) ++ [NULL]) ++ [TS_TYPE]) ++ [BPM_TS_EVENT_PIR]) ++ pir) ++ [NULL]) ++ List.replicate 0 0 := by
      rw [set_boundary0 ((((((((((((([10, 236, 255, 231, 82, 114, 78, 47, 166, 47, 209, 156, 214, 26, 147, 181, 3, 1, 1] ++ cts) ++ [NULL]) ++ [TS_TYPE]) ++ [BPM_TS_EVENT_FER]) ++ fer) ++ [NULL]) ++ [TS_TYPE]) ++ [BPM_TS_EVENT_FERC]) ++ ferc) ++ [NULL]) ++ [TS_TYPE]) ++ [BPM_TS_EVENT_PIR]) ++ pir) 1 NULL 124 (by simp [hc24, hf24, hg24, hp24]) (by omega)]
    simp only [e1, e2, e3, e4, e5, e6, e7, e8, e9, e10, e11, e12, e13, e14, e15, e16, Option.map_some']
    refine congrArg some ?_
    simp only [Prod.mk.injEq]
    refine ⟨?_, ?_, ?_, ?_⟩
    · rw [slice_left, slice_left, slice_left, slice_left, slice_left, slice_left, slice_left, slice_left, slice_left, slice_left, slice_left, slice_left, slice_left, slice_left, slice_self] <;> simp [hc24, hf24, hg24, hp24]
    · rw [slice_left, slice_left, slice_left, slice_left, slice_left, slice_left, slice_left, slice_left, slice_left, slice_left, slice_self] <;> simp [hc24, hf24, hg24, hp24]
    · rw [slice_left, slice_left, slice_left, slice_left, slice_left, slice_left, slice_self] <;> simp [hc24, hf24, hg24, hp24]
    · rw [slice_left, slice_left, slice_self] <;> simp [hc24, hf24, hg24, hp24]
  refine ⟨hmain, fun h1 h2 h3 h4 => ?_⟩
  rw [hmain, if_neg (by omega), if_neg (by omega), if_neg (by omega), if_neg (by omega)]

/-- C9 witness: the routing theorem at a concrete formatter and `now`,
with one positive argument (the first field takes the formatted value,
the other three take the shared `now`). -/
theorem bpm_ts_timestamp_routing_witness :
    now24.length = 24 ∧
    (bpm_ts fmt0 now24 5 0 0 0).map (fun b =>
        (slice b 19 24, slice b 46 24, slice b 73 24, slice b 100 24)) =
      some (if (5 : Int) > 0 then fmt0 5 else now24, if (0 : Int) > 0 then fmt0 0 else now24,
        if (0 : Int) > 0 then fmt0 0 else now24, if (0 : Int) > 0 then fmt0 0 else now24) :=
  ⟨by decide, (bpm_ts_timestamp_routing fmt0 now24 5 0 0 0 rfl (fun _ _ => rfl)).1⟩

end Bpm
